import Mathlib

/-!
Shallow embedding of the book suggestion application
(src/Book_suggestion_App_Sreeja.py): the fetch-and-normalize pipeline
`fetch_books`, the startup merge of two fetches, and the query handlers
`apply_filter` and `suggest_random` of `MainWindow`, together with proofs
of the behavioural claims about them.

Modelling conventions: pandas integer columns become `Int`; a JSON field
that `info.get` reads with a default becomes an `Option`; a Python
exception surfaces as `Except.error`; the GUI handlers become pure state
transformers over the window state (DataFrame plus text area), returning
the message box they raise, if any. Python `str.isdigit` and `int` are
modelled over ASCII decimal digits, and case folding over ASCII via
`String.toLower`; pandas `str.contains(pat, case=False)` is modelled for
metacharacter-free patterns as case-insensitive substring containment.
-/

namespace BookApp

/-- One normalized catalog record: one row of the DataFrame built by
`fetch_books`, with columns Title, Authors, Genre, Publication Year and
Ratings. The two numeric columns are signed integers in pandas, hence
`Int` here. -/
structure Book where
  title : String
  authors : String
  genre : String
  year : Int
  ratings : Int
  deriving DecidableEq, Repr, Inhabited

/-- One raw item of the remote JSON response: the `volumeInfo` fields
`fetch_books` reads at lines 51 to 65, each optional because the source
reads it with `info.get` and a default. -/
structure RawItem where
  title : Option String
  authors : Option (List String)
  publishedDate : Option String
  categories : Option (List String)
  ratingsCount : Option Int
  deriving DecidableEq, Repr, Inhabited

/-- The characters before the first occurrence of `c`, or all of them
when `c` does not occur: Python `s.split(c)[0]` for a one-character
separator. -/
def takeUntilChar (c : Char) : List Char → List Char
  | [] => []
  | x :: xs => if x == c then [] else x :: takeUntilChar c xs

/-- The value of a string of ASCII decimal digits, as Python `int`
computes it. -/
def digitsVal (l : List Char) : Nat :=
  l.foldl (fun acc c => acc * 10 + (c.toNat - 48)) 0

/-- Python `str.isdigit`, restricted to ASCII decimal digits: true on a
nonempty string of digits. -/
def pyIsDigit (s : String) : Bool :=
  !s.data.isEmpty && s.data.all Char.isDigit

/-- The `year` variable of `fetch_books` after lines 57 to 63: `none`
unless `publishedDate` is a nonempty string whose segment before the
first "-" is all digits, in which case that segment parses as a
number. -/
def yearOpt (published : String) : Option Nat :=
  if published = "" then none
  else
    let y := String.mk (takeUntilChar '-' published.data)
    if pyIsDigit y then some (digitsVal y.data) else none

/-- The value stored in the Publication Year column at line 70:
`year if year else 0`, so both `None` and a parsed `0` become `0`. -/
def yearField (published : String) : Int :=
  match yearOpt published with
  | some y => if y ≠ 0 then (y : Int) else 0
  | none => 0

/-- Python `", ".join`. -/
def joinCS (parts : List String) : String :=
  String.intercalate ", " parts

/-- Lines 51 to 72 of `fetch_books`: one raw item normalized to a row,
each field read with `info.get` and its default. An absent title becomes
the placeholder "Unknown Title"; absent author and category lists become
one-element placeholder lists before joining; an absent ratings count
becomes `0`. -/
def normRecord (it : RawItem) : Book where
  title := it.title.getD "Unknown Title"
  authors := joinCS (it.authors.getD ["Unknown Author"])
  genre := joinCS (it.categories.getD ["Uncategorized"])
  year := yearField (it.publishedDate.getD "")
  ratings := it.ratingsCount.getD 0

/-- The `drop_duplicates` subset: the (Title, Authors) pair of a row. -/
def key (b : Book) : String × String :=
  (b.title, b.authors)

/-- pandas `drop_duplicates(subset=[Title, Authors])`, which keeps the
first occurrence of each key: a row is dropped exactly when its key was
already seen to its left. -/
def dedupKeep (seen : List (String × String)) : List Book → List Book
  | [] => []
  | b :: rest =>
    if key b ∈ seen then dedupKeep seen rest
    else b :: dedupKeep (key b :: seen) rest

/-- Lines 47 to 84 of `fetch_books` after the network call: build the row
list from `items`, then the pandas cleaning passes. When `items` is empty,
`pd.DataFrame(books)` has no columns at all, so
`drop_duplicates(subset=[Title, Authors])` raises `KeyError`; that
exception is the error result here. Otherwise the rows are deduplicated
on (Title, Authors) keeping the first occurrence and rows titled
"Unknown Title" are dropped; the final `to_numeric`/`fillna`/`astype`
pass is the identity in this model because every row already carries
integers in both numeric columns. -/
def fetch_books (items : List RawItem) : Except String (List Book) :=
  let books := items.map normRecord
  if books.isEmpty then
    Except.error "KeyError: columns Title, Authors not found in empty DataFrame"
  else
    Except.ok ((dedupKeep [] books).filter (fun b => b.title != "Unknown Title"))

/-- The startup merge of `__main__`: `pd.concat` of the two fetched frames
followed by the second `drop_duplicates` on (Title, Authors) at line 253. -/
def mergeBooks (l1 l2 : List Book) : List Book :=
  dedupKeep [] (l1 ++ l2)

/-- The startup pipeline of `__main__` (lines 238 to 253): fetch the
Fiction and History subjects, concatenate and deduplicate; a failing
fetch aborts startup with its error. -/
def loadInitial (itemsFiction itemsHistory : List RawItem) : Except String (List Book) :=
  match fetch_books itemsFiction with
  | Except.error e => Except.error e
  | Except.ok l1 =>
    match fetch_books itemsHistory with
    | Except.error e => Except.error e
    | Except.ok l2 => Except.ok (mergeBooks l1 l2)

/-- Whether a pipeline result is the error outcome. -/
def isErr {ε α : Type} : Except ε α → Bool
  | Except.error _ => true
  | Except.ok _ => false

/-- Whether the needle list is an initial segment of the haystack list. -/
def prefAux : List Char → List Char → Bool
  | [], _ => true
  | _ :: _, [] => false
  | a :: as, b :: bs => a == b && prefAux as bs

/-- Whether the needle list occurs contiguously inside the haystack list. -/
def subAux (needle : List Char) : List Char → Bool
  | [] => needle.isEmpty
  | c :: rest => prefAux needle (c :: rest) || subAux needle rest

/-- ASCII case folding of a character list. -/
def lowerList (l : List Char) : List Char :=
  l.map Char.toLower

/-- pandas `Series.str.contains(pat, case=False, na=False)` at lines 178
and 211, modelled for patterns without regex metacharacters:
case-insensitive substring containment, with ASCII case folding. The
`na=False` flag is vacuous here because every Genre cell is a string. -/
def strContainsCI (s pat : String) : Bool :=
  subAux (lowerList pat.data) (lowerList s.data)

/-- Lines 175 to 180 of `apply_filter`: when the genre text is nonempty,
keep the rows whose Genre cell contains it case-insensitively; then keep
the rows meeting both numeric lower bounds. -/
def filterBooks (df : List Book) (genre : String) (minYear minRatings : Int) :
    List Book :=
  let d1 := if genre = "" then df else df.filter (fun b => strContainsCI b.genre genre)
  d1.filter (fun b => decide (minYear ≤ b.year) && decide (minRatings ≤ b.ratings))

/-- Lines 209 to 213 of `suggest_random`: the same filtering expressions,
repeated verbatim in the source. -/
def suggestFiltered (df : List Book) (genre : String) (minYear minRatings : Int) :
    List Book :=
  let d1 := if genre = "" then df else df.filter (fun b => strContainsCI b.genre genre)
  d1.filter (fun b => decide (minYear ≤ b.year) && decide (minRatings ≤ b.ratings))

/-- Lines 214 to 218 of `suggest_random`: `none` models the empty
"No books match" outcome; otherwise `df_filtered.sample(1).iloc[0]` is
modelled by an oracle index `pick`, reduced modulo the number of matching
rows, so any random draw is some value of `pick`. -/
def suggestRandom (df : List Book) (genre : String) (minYear minRatings : Int)
    (pick : Nat) : Option Book :=
  let f := suggestFiltered df genre minYear minRatings
  if h : f.length = 0 then none
  else some (f.get ⟨pick % f.length, Nat.mod_lt _ (Nat.pos_of_ne_zero h)⟩)

/-- Ascending insertion of a string into a list. -/
def insertStr (x : String) : List String → List String
  | [] => [x]
  | y :: ys => if x ≤ y then x :: y :: ys else y :: insertStr x ys

/-- Python `sorted` on a list of strings, as insertion sort. -/
def sortStrs : List String → List String
  | [] => []
  | x :: xs => insertStr x (sortStrs xs)

/-- The characters before the first occurrence of the separator list, or
all of them when it does not occur: Python `s.split(sep)[0]` for a
nonempty separator. -/
def takeUntilSep (sep : List Char) : List Char → List Char
  | [] => []
  | x :: xs => if prefAux sep (x :: xs) then [] else x :: takeUntilSep sep xs

/-- Element 0 of `Series.str.split(", ")` for one Genre cell. -/
def firstSegCS (s : String) : String :=
  String.mk (takeUntilSep [',', ' '] s.data)

/-- Line 123 of `init_ui`:
`sorted(set(df[Genre].str.split(", ").str[0].tolist()))`. -/
def availableGenres (df : List Book) : List String :=
  sortStrs ((df.map (fun b => firstSegCS b.genre)).dedup)

/-- Modelled from the claim wording, for comparison with the source: the
first comma-segment of a cell, splitting on "," alone. -/
def firstCommaSegment (s : String) : String :=
  String.mk (takeUntilChar ',' s.data)

/-- Modelled from the spec wording, for comparison with the source: take
the substring before the first "-" in the date string; if it is entirely
numeric, parse it as an integer, otherwise the year is 0. -/
def specYear (published : String) : Int :=
  let head := String.mk (takeUntilChar '-' published.data)
  if pyIsDigit head then (digitsVal head.data : Int) else 0

/-- A message box raised by a handler: a warning (Input Error) or an
information box (No Books). -/
inductive Dialog
  | warning (msg : String)
  | info (msg : String)
  deriving DecidableEq, Repr

/-- The `MainWindow` state a handler can read or write: the DataFrame
`self.df` and the result text area. -/
structure AppState where
  df : List Book
  textArea : String
  deriving DecidableEq, Repr, Inhabited

/-- What one handler invocation leaves behind: the window state and the
message box it showed, if any. -/
structure StepResult where
  st : AppState
  dialog : Option Dialog
  deriving DecidableEq, Repr

/-- Whether a character is ASCII whitespace, the part of Python
`str.strip` this model covers. -/
def isSpaceChar (c : Char) : Bool :=
  c == ' ' || c == '\t' || c == '\n' || c == '\r'

/-- Python `str.strip()`, over ASCII whitespace: drop leading and
trailing whitespace characters. -/
def pyStrip (s : String) : String :=
  String.mk (((s.data.dropWhile isSpaceChar).reverse.dropWhile isSpaceChar).reverse)

/-- Python `int(text)` on already stripped text, modelled over ASCII
decimal digits with one optional leading sign; `none` models
`ValueError`. -/
def pyInt? (s : String) : Option Int :=
  match s.data with
  | [] => none
  | '-' :: rest =>
    if !rest.isEmpty && rest.all Char.isDigit then some (-(digitsVal rest : Int))
    else none
  | '+' :: rest =>
    if !rest.isEmpty && rest.all Char.isDigit then some (digitsVal rest : Int)
    else none
  | l =>
    if l.all Char.isDigit then some (digitsVal l : Int) else none

/-- Lines 160 to 172 and 198 to 203: the text field is stripped at the
read site, and `int(text) if text else 0` turns an empty stripped field
into 0 without ever parsing it. -/
def parseField (t : String) : Option Int :=
  let s := pyStrip t
  if s = "" then some 0 else pyInt? s

/-- Lines 158 to 186, `apply_filter`: parse the two numeric fields in
order, warning and aborting on the first failure; filter; then either
report no matches in the text area or list the filtered titles there. -/
def applyFilterStep (st : AppState) (genre yearText ratingsText : String) :
    StepResult :=
  match parseField yearText with
  | none => ⟨st, some (Dialog.warning "Year must be an integer.")⟩
  | some minYear =>
    match parseField ratingsText with
    | none => ⟨st, some (Dialog.warning "Ratings must be an integer.")⟩
    | some minRatings =>
      let f := filterBooks st.df genre minYear minRatings
      if f.isEmpty then
        ⟨{ st with textArea := "No books found with these filters." }, none⟩
      else
        let titles := f.map (fun b => b.title ++ " by " ++ b.authors)
        ⟨{ st with textArea := String.intercalate "\n" titles }, none⟩

/-- The details block of lines 219 to 223, built by concatenation. -/
def bookDetails (b : Book) : String :=
  "Title: " ++ b.title ++ "\n" ++ "Authors: " ++ b.authors ++ "\n" ++
    "Genre: " ++ b.genre ++ "\n" ++ "Published Year: " ++ toString b.year ++
    "\n" ++ "Ratings Count: " ++ toString b.ratings

/-- Lines 196 to 224, `suggest_random`: one try block parses both fields
with a single warning message; then the same filter; an empty result
raises the information box and leaves the text area alone, otherwise the
details of the sampled row replace the text area. -/
def suggestRandomStep (st : AppState) (genre yearText ratingsText : String)
    (pick : Nat) : StepResult :=
  match parseField yearText with
  | none => ⟨st, some (Dialog.warning "Year and Ratings must be integers.")⟩
  | some minYear =>
    match parseField ratingsText with
    | none => ⟨st, some (Dialog.warning "Year and Ratings must be integers.")⟩
    | some minRatings =>
      match suggestRandom st.df genre minYear minRatings pick with
      | none => ⟨st, some (Dialog.info "No books match the criteria.")⟩
      | some b => ⟨{ st with textArea := bookDetails b }, none⟩

/-! ## Helper lemmas -/

instance {ε α : Type} [DecidableEq ε] [DecidableEq α] : DecidableEq (Except ε α) :=
  fun x y =>
    match x, y with
    | Except.error a, Except.error b => decidable_of_iff (a = b) (by simp)
    | Except.ok a, Except.ok b => decidable_of_iff (a = b) (by simp)
    | Except.error _, Except.ok _ => isFalse (by simp)
    | Except.ok _, Except.error _ => isFalse (by simp)

theorem prefAux_iff (n : List Char) : ∀ h : List Char,
    prefAux n h = true ↔ ∃ t, h = n ++ t := by
  induction n with
  | nil =>
    intro h
    simp [prefAux]
  | cons a as ih =>
    intro h
    cases h with
    | nil =>
      simp [prefAux]
    | cons b bs =>
      simp only [prefAux, Bool.and_eq_true, beq_iff_eq, ih, List.cons_append,
        List.cons.injEq]
      constructor
      · rintro ⟨rfl, t, rfl⟩
        exact ⟨t, rfl, rfl⟩
      · rintro ⟨t, rfl, rfl⟩
        exact ⟨rfl, t, rfl⟩

theorem subAux_iff (n : List Char) : ∀ h : List Char,
    subAux n h = true ↔ ∃ p t, h = p ++ n ++ t := by
  intro h
  induction h with
  | nil =>
    simp only [subAux, List.isEmpty_iff]
    constructor
    · rintro rfl
      exact ⟨[], [], rfl⟩
    · rintro ⟨p, t, ht⟩
      rcases List.append_eq_nil.mp (List.append_eq_nil.mp ht.symm).1 with ⟨-, h2⟩
      exact h2
  | cons c rest ih =>
    simp only [subAux, Bool.or_eq_true, prefAux_iff, ih]
    constructor
    · rintro (⟨t, ht⟩ | ⟨p, t, rfl⟩)
      · exact ⟨[], t, by simpa using ht⟩
      · exact ⟨c :: p, t, rfl⟩
    · rintro ⟨p, t, hpt⟩
      cases p with
      | nil =>
        exact Or.inl ⟨t, by simpa using hpt⟩
      | cons d ds =>
        simp only [List.cons_append, List.cons.injEq] at hpt
        exact Or.inr ⟨ds, t, hpt.2⟩

theorem dedupKeep_subset : ∀ (l : List Book) (seen : List (String × String)) (b : Book),
    b ∈ dedupKeep seen l → b ∈ l := by
  intro l
  induction l with
  | nil =>
    intro seen b hb
    simp [dedupKeep] at hb
  | cons x rest ih =>
    intro seen b hb
    by_cases hx : key x ∈ seen
    · simp only [dedupKeep, if_pos hx] at hb
      exact List.mem_cons_of_mem _ (ih _ _ hb)
    · simp only [dedupKeep, if_neg hx, List.mem_cons] at hb
      rcases hb with rfl | hb
      · exact List.mem_cons_self _ _
      · exact List.mem_cons_of_mem _ (ih _ _ hb)

theorem dedupKeep_not_seen : ∀ (l : List Book) (seen : List (String × String)) (b : Book),
    b ∈ dedupKeep seen l → key b ∉ seen := by
  intro l
  induction l with
  | nil =>
    intro seen b hb
    simp [dedupKeep] at hb
  | cons x rest ih =>
    intro seen b hb
    by_cases hx : key x ∈ seen
    · simp only [dedupKeep, if_pos hx] at hb
      exact ih _ _ hb
    · simp only [dedupKeep, if_neg hx, List.mem_cons] at hb
      rcases hb with rfl | hb
      · exact hx
      · intro hseen
        exact ih _ _ hb (List.mem_cons_of_mem _ hseen)

theorem dedupKeep_keys_nodup : ∀ (l : List Book) (seen : List (String × String)),
    ((dedupKeep seen l).map key).Nodup := by
  intro l
  induction l with
  | nil =>
    intro seen
    simp [dedupKeep]
  | cons x rest ih =>
    intro seen
    by_cases hx : key x ∈ seen
    · simp only [dedupKeep, if_pos hx]
      exact ih _
    · simp only [dedupKeep, if_neg hx, List.map_cons, List.nodup_cons]
      refine ⟨fun hmem => ?_, ih _⟩
      rcases List.mem_map.mp hmem with ⟨c, hc, hkey⟩
      exact dedupKeep_not_seen _ _ _ hc (hkey ▸ List.mem_cons_self _ _)

theorem dedupKeep_first_occ : ∀ (l : List Book) (seen : List (String × String)) (b : Book),
    b ∈ dedupKeep seen l →
    ∃ t₁ t₂, l = t₁ ++ b :: t₂ ∧ ∀ c ∈ t₁, key c ≠ key b := by
  intro l
  induction l with
  | nil =>
    intro seen b hb
    simp [dedupKeep] at hb
  | cons x rest ih =>
    intro seen b hb
    by_cases hx : key x ∈ seen
    · simp only [dedupKeep, if_pos hx] at hb
      rcases ih _ _ hb with ⟨t₁, t₂, rfl, hne⟩
      refine ⟨x :: t₁, t₂, rfl, ?_⟩
      intro c hc
      rcases List.mem_cons.mp hc with rfl | hc
      · intro hkey
        exact dedupKeep_not_seen _ _ _ hb (hkey ▸ hx)
      · exact hne c hc
    · simp only [dedupKeep, if_neg hx, List.mem_cons] at hb
      rcases hb with rfl | hb
      · exact ⟨[], rest, rfl, by simp⟩
      · rcases ih _ _ hb with ⟨t₁, t₂, rfl, hne⟩
        refine ⟨x :: t₁, t₂, rfl, ?_⟩
        intro c hc
        rcases List.mem_cons.mp hc with rfl | hc
        · intro hkey
          exact dedupKeep_not_seen _ _ _ hb (hkey ▸ List.mem_cons_self _ _)
        · exact hne c hc

theorem dedupKeep_covers : ∀ (l : List Book) (seen : List (String × String)) (b : Book),
    b ∈ l → key b ∉ seen → key b ∈ (dedupKeep seen l).map key := by
  intro l
  induction l with
  | nil =>
    intro seen b hb
    simp at hb
  | cons x rest ih =>
    intro seen b hb hseen
    by_cases hx : key x ∈ seen
    · simp only [dedupKeep, if_pos hx]
      rcases List.mem_cons.mp hb with rfl | hb
      · exact absurd hx hseen
      · exact ih _ _ hb hseen
    · simp only [dedupKeep, if_neg hx, List.map_cons, List.mem_cons]
      rcases List.mem_cons.mp hb with rfl | hb
      · exact Or.inl rfl
      · by_cases hbx : key b = key x
        · exact Or.inl hbx
        · refine Or.inr (ih _ _ hb ?_)
          intro hmem
          rcases List.mem_cons.mp hmem with h1 | h1
          · exact hbx h1
          · exact hseen h1

/-- The record list a successful fetch returns, read off the definition. -/
theorem fetch_books_ok (items : List RawItem) (l : List Book)
    (h : fetch_books items = Except.ok l) :
    l = (dedupKeep [] (items.map normRecord)).filter
      (fun b => b.title != "Unknown Title") := by
  simp only [fetch_books] at h
  split at h
  · exact absurd h (by simp)
  · exact (Except.ok.inj h).symm

theorem yearField_nonneg (published : String) : 0 ≤ yearField published := by
  unfold yearField
  cases yearOpt published with
  | none => exact le_refl 0
  | some y =>
    by_cases hy : y ≠ 0
    · simp [hy, Int.natCast_nonneg]
    · simp [hy]

/-! ## C1 -/

/-- C1: a record is in the filter result iff it is a record of the
Dataset whose genre field contains the genre text as a case-insensitive
substring (a test that is skipped when the genre text is empty) and whose
publication year and ratings count meet the two lower bounds. -/
theorem filterBooks_mem_iff (df : List Book) (g : String) (y r : Int) (b : Book) :
    b ∈ filterBooks df g y r ↔
      b ∈ df ∧
        (g ≠ "" → ∃ p t, lowerList b.genre.data = p ++ lowerList g.data ++ t) ∧
        y ≤ b.year ∧ r ≤ b.ratings := by
  unfold filterBooks
  by_cases hg : g = ""
  · subst hg
    simp [List.mem_filter, and_assoc]
  · simp only [if_neg hg, List.mem_filter, Bool.and_eq_true, decide_eq_true_eq,
      strContainsCI, subAux_iff]
    constructor
    · rintro ⟨⟨hb, hsub⟩, hy, hr⟩
      exact ⟨hb, fun _ => hsub, hy, hr⟩
    · rintro ⟨hb, hsub, hy, hr⟩
      exact ⟨⟨hb, hsub hg⟩, hy, hr⟩

/-! ## C2 -/

/-- C2 counterexample: a raw item whose supplied ratings count is -1 is
accepted and normalized to a retained record whose Ratings cell is
negative, because the cleaning pass only fills missing values with 0 and
never clamps supplied ones. -/
theorem fetch_negative_ratings_counterexample :
    fetch_books [RawItem.mk (some "T") (some ["A"]) none none (some (-1))] =
      Except.ok [Book.mk "T" "A" "Uncategorized" 0 (-1)] ∧
      (Book.mk "T" "A" "Uncategorized" 0 (-1)).ratings < 0 := by
  decide

/-- C2 amended: every record a fetch returns has a non-negative
publication year and an always-present integer ratings count; the
ratings count is non-negative provided every supplied raw ratings count
is non-negative (an absent one defaults to 0). -/
theorem fetch_fields_nonneg (items : List RawItem) (l : List Book)
    (h : fetch_books items = Except.ok l) :
    ∀ b ∈ l, 0 ≤ b.year ∧
      ((∀ it ∈ items, ∀ rc, it.ratingsCount = some rc → 0 ≤ rc) → 0 ≤ b.ratings) := by
  intro b hb
  rw [fetch_books_ok items l h] at hb
  have hb1 : b ∈ dedupKeep [] (items.map normRecord) := (List.mem_filter.mp hb).1
  have hb2 : b ∈ items.map normRecord := dedupKeep_subset _ _ _ hb1
  rcases List.mem_map.mp hb2 with ⟨it, hit, rfl⟩
  refine ⟨yearField_nonneg _, fun hpos => ?_⟩
  show 0 ≤ it.ratingsCount.getD 0
  cases hrc : it.ratingsCount with
  | none => simp
  | some rc => simpa using hpos it hit rc hrc

/-- C2 witness: the amended statement at a one-item fetch. -/
theorem fetch_fields_nonneg_witness :
    0 ≤ (Book.mk "T" "A" "Uncategorized" 0 3).year ∧
      ((∀ it ∈ [RawItem.mk (some "T") (some ["A"]) none none (some 3)],
          ∀ rc, it.ratingsCount = some rc → 0 ≤ rc) →
        0 ≤ (Book.mk "T" "A" "Uncategorized" 0 3).ratings) :=
  fetch_fields_nonneg [RawItem.mk (some "T") (some ["A"]) none none (some 3)]
    [Book.mk "T" "A" "Uncategorized" 0 3] (by decide)
    (Book.mk "T" "A" "Uncategorized" 0 3) (by decide)

/-! ## C3 -/

/-- C3 counterexample: a Dataset reachable through a real fetch holds a
record with a negative Ratings cell, and the empty filter with both
bounds 0 drops that record instead of returning the Dataset unchanged. -/
theorem filterBooks_identity_counterexample :
    fetch_books [RawItem.mk (some "T") (some ["A"]) none none (some (-1))] =
      Except.ok [Book.mk "T" "A" "Uncategorized" 0 (-1)] ∧
      filterBooks [Book.mk "T" "A" "Uncategorized" 0 (-1)] "" 0 0 ≠
        [Book.mk "T" "A" "Uncategorized" 0 (-1)] := by
  decide

/-- C3 amended: on every Dataset all of whose records have non-negative
publication year and ratings count, the filter with empty genre and both
bounds 0 returns the Dataset unchanged, in order. -/
theorem filterBooks_identity (df : List Book)
    (h : ∀ b ∈ df, 0 ≤ b.year ∧ 0 ≤ b.ratings) :
    filterBooks df "" 0 0 = df := by
  unfold filterBooks
  simp only [if_pos rfl]
  refine List.filter_eq_self.mpr ?_
  intro b hb
  rcases h b hb with ⟨h1, h2⟩
  simp [h1, h2]

/-- C3 witness: the amended identity at a concrete two-record Dataset. -/
theorem filterBooks_identity_witness :
    filterBooks
      [Book.mk "T1" "A1" "Fiction" 2010 5, Book.mk "T2" "A2" "History" 1990 0] "" 0 0 =
      [Book.mk "T1" "A1" "Fiction" 2010 5, Book.mk "T2" "A2" "History" 1990 0] :=
  filterBooks_identity
    [Book.mk "T1" "A1" "Fiction" 2010 5, Book.mk "T2" "A2" "History" 1990 0] (by decide)

/-! ## C4 -/

/-- C4: over any two successful fetches merged at startup, the merged
Dataset has pairwise distinct (title, authors) keys, contains no record
titled "Unknown Title", keeps for each of its records the first
occurrence of its key in the concatenated fetch order, and drops nothing
else: every key of the concatenation is still present. -/
theorem merge_dedup_spec (items1 items2 : List RawItem) (l1 l2 : List Book)
    (h1 : fetch_books items1 = Except.ok l1)
    (h2 : fetch_books items2 = Except.ok l2) :
    ((mergeBooks l1 l2).map key).Nodup ∧
      (∀ b ∈ mergeBooks l1 l2, b.title ≠ "Unknown Title") ∧
      (∀ b ∈ mergeBooks l1 l2,
        ∃ t₁ t₂, l1 ++ l2 = t₁ ++ b :: t₂ ∧ ∀ c ∈ t₁, key c ≠ key b) ∧
      (∀ b ∈ l1 ++ l2, key b ∈ (mergeBooks l1 l2).map key) := by
  refine ⟨dedupKeep_keys_nodup _ _, ?_, ?_, ?_⟩
  · intro b hb
    have hmem : b ∈ l1 ++ l2 := dedupKeep_subset _ _ _ hb
    have hne : (b.title != "Unknown Title") = true := by
      rcases List.mem_append.mp hmem with hb1 | hb2
      · rw [fetch_books_ok items1 l1 h1] at hb1
        exact (List.mem_filter.mp hb1).2
      · rw [fetch_books_ok items2 l2 h2] at hb2
        exact (List.mem_filter.mp hb2).2
    simpa using hne
  · intro b hb
    exact dedupKeep_first_occ _ _ _ hb
  · intro b hb
    exact dedupKeep_covers _ _ _ hb (by simp)

/-- C4 witness: a concrete merge with a duplicate across the two fetches,
a duplicate inside the first fetch, and a placeholder-titled raw item. -/
theorem merge_dedup_spec_witness :
    ((mergeBooks [Book.mk "T" "A" "Uncategorized" 0 3] [Book.mk "T" "A" "Uncategorized" 0 5]).map
      key).Nodup ∧
      (∀ b ∈ mergeBooks [Book.mk "T" "A" "Uncategorized" 0 3]
          [Book.mk "T" "A" "Uncategorized" 0 5], b.title ≠ "Unknown Title") ∧
      (∀ b ∈ mergeBooks [Book.mk "T" "A" "Uncategorized" 0 3]
          [Book.mk "T" "A" "Uncategorized" 0 5],
        ∃ t₁ t₂,
          [Book.mk "T" "A" "Uncategorized" 0 3] ++ [Book.mk "T" "A" "Uncategorized" 0 5] =
            t₁ ++ b :: t₂ ∧ ∀ c ∈ t₁, key c ≠ key b) ∧
      (∀ b ∈ [Book.mk "T" "A" "Uncategorized" 0 3] ++ [Book.mk "T" "A" "Uncategorized" 0 5],
        key b ∈ ((mergeBooks [Book.mk "T" "A" "Uncategorized" 0 3]
          [Book.mk "T" "A" "Uncategorized" 0 5]).map key)) :=
  merge_dedup_spec
    [RawItem.mk (some "T") (some ["A"]) none none (some 3),
      RawItem.mk (some "T") (some ["A"]) none none (some 3),
      RawItem.mk none none none none none]
    [RawItem.mk (some "T") (some ["A"]) none none (some 5)]
    [Book.mk "T" "A" "Uncategorized" 0 3] [Book.mk "T" "A" "Uncategorized" 0 5]
    (by decide) (by decide)

/-! ## C5 -/

/-- C5: the stored publication year agrees on every date string with the
spec rule (substring before the first "-", parsed when entirely numeric,
otherwise 0); in particular "2015-03-04" gives 2015, "circa 1990" gives
0, and an empty or absent date string gives 0. -/
theorem yearField_eq_specYear :
    (∀ published, yearField published = specYear published) ∧
      yearField "2015-03-04" = 2015 ∧ yearField "circa 1990" = 0 ∧
      yearField "" = 0 := by
  refine ⟨?_, by decide, by decide, by decide⟩
  intro p
  by_cases hp : p = ""
  · subst hp
    decide
  · unfold yearField specYear yearOpt
    simp only [if_neg hp]
    by_cases hd : pyIsDigit (String.mk (takeUntilChar '-' p.data)) = true
    · simp only [hd, if_true]
      by_cases h0 : digitsVal (takeUntilChar '-' p.data) = 0
      · simp [h0]
      · simp [h0]
    · simp [hd]

/-! ## C6 -/

/-- C6: the random-suggestion handler computes exactly the same filtered
sequence as the filter handler with the same criteria; whenever it
returns a record that record is a member of that sequence, and the
distinct no-match outcome arises exactly when the sequence is empty. -/
theorem suggestRandom_refines_filter (df : List Book) (g : String) (y r : Int)
    (pick : Nat) :
    suggestFiltered df g y r = filterBooks df g y r ∧
      (∀ b, suggestRandom df g y r pick = some b → b ∈ filterBooks df g y r) ∧
      (suggestRandom df g y r pick = none ↔ filterBooks df g y r = []) := by
  have hfe : suggestFiltered df g y r = filterBooks df g y r := rfl
  refine ⟨hfe, ?_, ?_⟩
  · intro b hb
    simp only [suggestRandom] at hb
    split at hb
    · exact absurd hb (by simp)
    · rw [← hfe]
      exact (Option.some.inj hb) ▸ List.get_mem _ _ _
  · constructor
    · intro hnone
      simp only [suggestRandom] at hnone
      split at hnone
      · next h =>
        rw [← hfe]
        exact List.length_eq_zero.mp h
      · exact absurd hnone (by simp)
    · intro hempty
      have hlen : (suggestFiltered df g y r).length = 0 := by
        rw [hfe, hempty]
        rfl
      simp only [suggestRandom]
      rw [dif_pos hlen]

/-! ## C7 -/

/-- C7: neither handler ever changes the DataFrame: on the warning
paths, the no-match paths and the success paths alike, the Dataset field
of the resulting window state is the one the handler started from. -/
theorem handlers_preserve_df (st : AppState) (genre yearText ratingsText : String)
    (pick : Nat) :
    (applyFilterStep st genre yearText ratingsText).st.df = st.df ∧
      (suggestRandomStep st genre yearText ratingsText pick).st.df = st.df := by
  constructor
  · unfold applyFilterStep
    split
    · rfl
    · split
      · rfl
      · dsimp only
        split <;> rfl
  · unfold suggestRandomStep
    split
    · rfl
    · split
      · rfl
      · split <;> rfl

/-! ## C9 -/

/-- C9: a fetch whose raw item list is empty fails rather than returning
an empty record sequence, and startup fails whichever of the two subject
fetches got the empty list, so no Dataset at all is produced from it. -/
theorem empty_items_fatal (itemsOther : List RawItem) :
    isErr (fetch_books ([] : List RawItem)) = true ∧
      isErr (loadInitial [] itemsOther) = true ∧
      isErr (loadInitial itemsOther []) = true := by
  refine ⟨rfl, rfl, ?_⟩
  unfold loadInitial
  cases fetch_books itemsOther with
  | error e => rfl
  | ok l1 => rfl

/-! ## C10 -/

/-- C10: a numeric field whose text is empty or all whitespace is
treated as the bound 0 by both handlers, independently of what the other
field holds: the handler behaves exactly as if that one field read "0",
and the blank field never triggers its validation warning; when both
fields are blank neither handler raises any validation warning at
all. -/
theorem blank_fields_default_zero (st : AppState)
    (genre yearText ratingsText : String) (pick : Nat) :
    (pyStrip yearText = "" →
      applyFilterStep st genre yearText ratingsText =
          applyFilterStep st genre "0" ratingsText ∧
        suggestRandomStep st genre yearText ratingsText pick =
          suggestRandomStep st genre "0" ratingsText pick ∧
        (applyFilterStep st genre yearText ratingsText).dialog ≠
          some (Dialog.warning "Year must be an integer.")) ∧
    (pyStrip ratingsText = "" →
      applyFilterStep st genre yearText ratingsText =
          applyFilterStep st genre yearText "0" ∧
        suggestRandomStep st genre yearText ratingsText pick =
          suggestRandomStep st genre yearText "0" pick ∧
        (applyFilterStep st genre yearText ratingsText).dialog ≠
          some (Dialog.warning "Ratings must be an integer.")) ∧
    (pyStrip yearText = "" → pyStrip ratingsText = "" →
      (∀ m, (applyFilterStep st genre yearText ratingsText).dialog ≠
        some (Dialog.warning m)) ∧
      (∀ m, (suggestRandomStep st genre yearText ratingsText pick).dialog ≠
        some (Dialog.warning m))) := by
  have h0 : parseField "0" = some 0 := by decide
  refine ⟨fun hy => ?_, fun hr => ?_, fun hy hr => ?_⟩
  · have hpy : parseField yearText = some 0 := by simp [parseField, hy]
    refine ⟨?_, ?_, ?_⟩
    · unfold applyFilterStep
      rw [hpy, h0]
    · unfold suggestRandomStep
      rw [hpy, h0]
    · unfold applyFilterStep
      rw [hpy]
      dsimp only
      split
      · simp
      · split <;> simp
  · have hpr : parseField ratingsText = some 0 := by simp [parseField, hr]
    refine ⟨?_, ?_, ?_⟩
    · unfold applyFilterStep
      rw [hpr, h0]
    · unfold suggestRandomStep
      rw [hpr, h0]
    · unfold applyFilterStep
      split
      · simp
      · rw [hpr]
        dsimp only
        split <;> simp
  · have hpy : parseField yearText = some 0 := by simp [parseField, hy]
    have hpr : parseField ratingsText = some 0 := by simp [parseField, hr]
    constructor
    · intro m
      unfold applyFilterStep
      rw [hpy, hpr]
      dsimp only
      split <;> simp
    · intro m
      unfold suggestRandomStep
      rw [hpy, hpr]
      dsimp only
      cases suggestRandom st.df genre 0 0 pick <;> simp

/-- C10 witness: the mixed cases at concrete inputs, with one field
blank and the other supplied: a whitespace-only year text against a
supplied ratings text, and a supplied year text against a
whitespace-only ratings text. -/
theorem blank_fields_default_zero_witness :
    applyFilterStep (AppState.mk [] "") "G" " " "5" =
        applyFilterStep (AppState.mk [] "") "G" "0" "5" ∧
      suggestRandomStep (AppState.mk [] "") "G" "7" " " 0 =
        suggestRandomStep (AppState.mk [] "") "G" "7" "0" 0 :=
  ⟨((blank_fields_default_zero (AppState.mk [] "") "G" " " "5" 0).1 (by decide)).1,
    ((blank_fields_default_zero (AppState.mk [] "") "G" "7" " " 0).2.1 (by decide)).2.1⟩

/-! ## C8 -/

theorem mem_insertStr (x y : String) : ∀ l : List String,
    y ∈ insertStr x l ↔ y = x ∨ y ∈ l := by
  intro l
  induction l with
  | nil => simp [insertStr]
  | cons z zs ih =>
    simp only [insertStr]
    split
    · simp [List.mem_cons]
    · simp only [List.mem_cons, ih]
      tauto

theorem insertStr_perm (x : String) : ∀ l : List String,
    (insertStr x l).Perm (x :: l) := by
  intro l
  induction l with
  | nil => simp [insertStr]
  | cons z zs ih =>
    simp only [insertStr]
    split
    · exact List.Perm.refl _
    · exact (List.Perm.cons z ih).trans (List.Perm.swap x z zs)

theorem sorted_insertStr (x : String) : ∀ l : List String,
    l.Sorted (· ≤ ·) → (insertStr x l).Sorted (· ≤ ·) := by
  intro l
  induction l with
  | nil =>
    intro _
    simp [insertStr]
  | cons z zs ih =>
    intro hs
    rcases List.sorted_cons.mp hs with ⟨hz, hzs⟩
    rw [insertStr]
    split
    · next h =>
      refine List.sorted_cons.mpr ⟨?_, hs⟩
      intro b hb
      rcases List.mem_cons.mp hb with rfl | hb
      · exact h
      · exact le_trans (show x ≤ z from h) (hz b hb)
    · next h =>
      refine List.sorted_cons.mpr ⟨?_, ih hzs⟩
      intro b hb
      rcases (mem_insertStr x b zs).mp hb with rfl | hb
      · exact le_of_not_le h
      · exact hz b hb

theorem sortStrs_perm : ∀ l : List String, (sortStrs l).Perm l := by
  intro l
  induction l with
  | nil => simp [sortStrs]
  | cons x xs ih => exact (insertStr_perm x (sortStrs xs)).trans (List.Perm.cons x ih)

theorem sorted_sortStrs : ∀ l : List String, (sortStrs l).Sorted (· ≤ ·) := by
  intro l
  induction l with
  | nil => simp [sortStrs]
  | cons x xs ih => exact sorted_insertStr x _ ih

/-- C8 counterexample: a genre cell whose labels are separated by a bare
comma is not split there, because the source splits on the two-character
separator ", ": the first comma-segment "A" is missing from the result,
which holds "A,B" whole. -/
theorem availableGenres_counterexample :
    availableGenres [Book.mk "T" "A" "A,B" 0 0] = ["A,B"] ∧
      firstCommaSegment "A,B" = "A" ∧
      availableGenres [Book.mk "T" "A" "A,B" 0 0] ≠ ["A"] := by
  decide

/-- C8 amended: availableGenres returns the deduplicated strictly
ascending list of the first ", "-segments (the separator the fetch used
to join category labels) of the genre cells of the Dataset. -/
theorem availableGenres_spec (df : List Book) :
    (availableGenres df).Sorted (· < ·) ∧
      (∀ s, s ∈ availableGenres df ↔ ∃ b ∈ df, firstSegCS b.genre = s) := by
  have hperm : (availableGenres df).Perm
      ((df.map (fun b => firstSegCS b.genre)).dedup) := sortStrs_perm _
  constructor
  · have hsorted : (availableGenres df).Sorted (· ≤ ·) := sorted_sortStrs _
    have hnodup : (availableGenres df).Nodup :=
      hperm.nodup_iff.mpr (List.nodup_dedup _)
    exact hsorted.lt_of_le hnodup
  · intro s
    rw [hperm.mem_iff, List.mem_dedup, List.mem_map]

end BookApp
